import Mathlib

/-!
Verification of the heart-rate monitor badge app
(`src/badge/apps/heartrate/__init__.py`).

The app keeps one mutable `state` dict and exposes three lifecycle hooks
`init`, `update`, `on_exit` called by the host. We embed the state dict as
a structure, and each hook as a pure function on that structure. Ticks are
Python integers, embedded as `Int`. Drawing calls have no effect on the
state and are omitted. The single transcendental expression
`int(math.sin(now / 1000.0) * 8)` is embedded as `variation` below, built
from `Real.sin` and the Python `int` truncation; the state-machine
functions take the variation function as an explicit parameter `v` so that
they stay computable, and every claim instantiates `v` with the real
`variation` or quantifies over it.
-/

namespace HeartRate

/-- The `state` dict of the app: heart_rate, is_connected, is_scanning,
scan_start, scan_duration (fixed at 3000 ms at creation), hr_update_time,
devices_found. Device descriptors never carry data in the source (the list
is only ever cleared), so we embed them as integers. -/
structure AppState where
  heart_rate : Int
  is_connected : Bool
  is_scanning : Bool
  scan_start : Int
  scan_duration : Int
  hr_update_time : Int
  devices_found : List Int
deriving Repr, DecidableEq

/-- The initial value of the `state` dict, as declared at module load. -/
def state0 : AppState :=
  { heart_rate := 0
    is_connected := false
    is_scanning := false
    scan_start := 0
    scan_duration := 3000
    hr_update_time := 0
    devices_found := [] }

/-- Python `int()` applied to a real number: truncation toward zero. -/
noncomputable def pyInt (x : ℝ) : Int :=
  if 0 ≤ x then ⌊x⌋ else ⌈x⌉

/-- The expression `int(math.sin(now / 1000.0) * 8)` from
`_simulate_hr_reading`, with `math.sin` idealised as `Real.sin`. -/
noncomputable def variation (now : Int) : Int :=
  pyInt (Real.sin ((now : ℝ) / 1000) * 8)

/-- The function `_start_scan`: returns immediately when bluetooth is unavailable,
otherwise sets `is_scanning`, records `scan_start = io.ticks` and clears
`devices_found`. `bt` is the module-level `BLUETOOTH_AVAILABLE` flag. -/
def start_scan (bt : Bool) (st : AppState) (now : Int) : AppState :=
  if bt then
    { st with is_scanning := true, scan_start := now, devices_found := [] }
  else st

/-- The function `_parse_heart_rate`: parse a BLE heart-rate characteristic value.
`data` is a Python byte sequence, embedded as a list of naturals. -/
def parse_heart_rate (data : List Nat) : Option Nat :=
  if data.length < 2 then none
  else
    let flags := data.getD 0 0
    if flags &&& 0x01 = 0 then some (data.getD 1 0)
    else if 3 ≤ data.length then some ((data.getD 2 0) <<< 8 ||| data.getD 1 0)
    else none

/-- Reference function for claim C4, written from the words of the spec:
fewer than 2 bytes gives none; bit 0 of byte 0 clear gives byte 1; bit 0
set with at least 3 bytes gives the little-endian 16-bit value
(byte2 shifted left by 8) or-ed with byte1; bit 0 set with exactly 2 bytes
gives none. -/
def parse_heart_rate_spec (data : List Nat) : Option Nat :=
  match data with
  | b0 :: b1 :: rest =>
    if b0.testBit 0 = false then some b1
    else
      match rest with
      | b2 :: _ => some (b2 <<< 8 ||| b1)
      | [] => none
  | _ => none

/-- The function `_simulate_hr_reading`: when at least 500 ms have passed since
`hr_update_time`, set `heart_rate = 72 + v now` and `hr_update_time = now`,
where `v` stands for `int(math.sin(now / 1000.0) * 8)`. -/
def simulate_hr_reading (v : Int → Int) (st : AppState) (now : Int) : AppState :=
  if 500 ≤ now - st.hr_update_time then
    { st with heart_rate := 72 + v now, hr_update_time := now }
  else st

/-- The BUTTON_A branch of `update`: start a scan when neither connected
nor scanning, disconnect (and zero the reading) when connected. -/
def handle_button_a (bt : Bool) (st : AppState) (now : Int) : AppState :=
  if st.is_connected = false ∧ st.is_scanning = false then
    start_scan bt st now
  else if st.is_connected = true then
    { st with is_connected := false, heart_rate := 0 }
  else st

/-- The scan-timeout block of `update`: when scanning and
`now - scan_start >= scan_duration`, complete the scan by simulating a
connection. -/
def scan_timeout_check (st : AppState) (now : Int) : AppState :=
  if st.is_scanning = true ∧ st.scan_duration ≤ now - st.scan_start then
    { st with is_scanning := false, is_connected := true, hr_update_time := now }
  else st

/-- The function `update`: button handling first (BUTTON_A, then the BUTTON_HOME early
return with `False`), then the scan-timeout check, then the simulated
heart-rate refresh when connected. Returns the new state together with the
boolean that `update` returns to the host. -/
def update (bt : Bool) (v : Int → Int) (st : AppState)
    (a_pressed home_pressed : Bool) (now : Int) : AppState × Bool :=
  let s1 := if a_pressed then handle_button_a bt st now else st
  if home_pressed then (s1, false)
  else
    let s2 := scan_timeout_check s1 now
    let s3 := if s2.is_connected then simulate_hr_reading v s2 now else s2
    (s3, true)

/-- The function `init`: a no-op; the state is pre-populated at declaration time. -/
def init (st : AppState) : AppState := st

/-- The function `on_exit`: reset `is_connected`, `is_scanning` and `heart_rate`. -/
def on_exit (st : AppState) : AppState :=
  { st with is_connected := false, is_scanning := false, heart_rate := 0 }

/-- One lifecycle call made by the host: `init`, one `update` frame
(whether BUTTON_A and BUTTON_HOME are freshly pressed, and the tick), or
`on_exit`. -/
inductive Event where
  | init : Event
  | update (a_pressed home_pressed : Bool) (now : Int) : Event
  | on_exit : Event
deriving Repr, DecidableEq

/-- The state reached after one lifecycle call. -/
def step (bt : Bool) (v : Int → Int) (st : AppState) (e : Event) : AppState :=
  match e with
  | Event.init => init st
  | Event.update a h now => (update bt v st a h now).1
  | Event.on_exit => on_exit st

/-- The state reached from the initial state after a sequence of
lifecycle calls. -/
def run (bt : Bool) (v : Int → Int) (es : List Event) : AppState :=
  es.foldl (step bt v) state0

/-! ### General lemmas about the components -/

lemma simulate_not_yet (v : Int → Int) (st : AppState) (now : Int)
    (h : now - st.hr_update_time < 500) : simulate_hr_reading v st now = st := by
  rw [simulate_hr_reading, if_neg (by omega)]

lemma simulate_fields (v : Int → Int) (st : AppState) (now : Int) :
    (simulate_hr_reading v st now).is_connected = st.is_connected ∧
    (simulate_hr_reading v st now).is_scanning = st.is_scanning ∧
    (simulate_hr_reading v st now).scan_start = st.scan_start ∧
    (simulate_hr_reading v st now).scan_duration = st.scan_duration ∧
    (simulate_hr_reading v st now).devices_found = st.devices_found := by
  unfold simulate_hr_reading
  split <;> simp

/-- A form of the first component of `update` convenient for rewriting:
button handling, then the early return on BUTTON_HOME, then the timeout
check and the simulated refresh. -/
lemma update_fst (bt : Bool) (v : Int → Int) (st : AppState)
    (a hp : Bool) (now : Int) :
    (update bt v st a hp now).1 =
      (if hp then (if a then handle_button_a bt st now else st)
       else
         if (scan_timeout_check (if a then handle_button_a bt st now else st)
              now).is_connected then
           simulate_hr_reading v
             (scan_timeout_check (if a then handle_button_a bt st now else st) now)
             now
         else
           scan_timeout_check (if a then handle_button_a bt st now else st) now) := by
  unfold update
  cases hp <;> simp

/-- The reachability invariant: `is_connected` and `is_scanning` are
mutually exclusive, and `heart_rate` is zero while disconnected. -/
def Inv (st : AppState) : Prop :=
  (st.is_connected && st.is_scanning) = false ∧
  (st.is_connected = false → st.heart_rate = 0)

lemma Inv_state0 : Inv state0 := ⟨rfl, fun _ => rfl⟩

lemma Inv_start_scan (bt : Bool) (st : AppState) (now : Int)
    (h : Inv st) (hc : st.is_connected = false) : Inv (start_scan bt st now) := by
  unfold start_scan
  split
  · exact ⟨by simp [hc], fun _ => h.2 hc⟩
  · exact h

lemma Inv_handle (bt : Bool) (st : AppState) (now : Int) (h : Inv st) :
    Inv (handle_button_a bt st now) := by
  unfold handle_button_a
  split
  · next hcond => exact Inv_start_scan bt st now h hcond.1
  · split
    · exact ⟨by simp, fun _ => rfl⟩
    · exact h

lemma Inv_timeout (st : AppState) (now : Int) (h : Inv st) :
    Inv (scan_timeout_check st now) := by
  unfold scan_timeout_check
  split
  · refine ⟨by simp, ?_⟩
    intro hc
    simp at hc
  · exact h

lemma Inv_simulate (v : Int → Int) (st : AppState) (now : Int) (h : Inv st)
    (hc : st.is_connected = true) : Inv (simulate_hr_reading v st now) := by
  unfold simulate_hr_reading
  split
  · refine ⟨?_, ?_⟩
    · simpa using h.1
    · intro hfalse
      simp [hc] at hfalse
  · exact h

lemma Inv_update (bt : Bool) (v : Int → Int) (st : AppState)
    (a hp : Bool) (now : Int) (hi : Inv st) :
    Inv (update bt v st a hp now).1 := by
  rw [update_fst]
  have hs1 : Inv (if a then handle_button_a bt st now else st) := by
    cases a
    · exact hi
    · exact Inv_handle bt st now hi
  cases hp with
  | true => simpa using hs1
  | false =>
    have hs2 : Inv (scan_timeout_check
        (if a then handle_button_a bt st now else st) now) :=
      Inv_timeout _ now hs1
    simp only [Bool.false_eq_true, if_false]
    by_cases hc : (scan_timeout_check
        (if a then handle_button_a bt st now else st) now).is_connected = true
    · rw [if_pos hc]
      exact Inv_simulate v _ now hs2 hc
    · rw [if_neg hc]
      exact hs2

lemma Inv_step (bt : Bool) (v : Int → Int) (st : AppState) (e : Event)
    (hi : Inv st) : Inv (step bt v st e) := by
  cases e with
  | init => exact hi
  | update a hp now => exact Inv_update bt v st a hp now hi
  | on_exit =>
    refine ⟨by simp [step, on_exit], fun _ => ?_⟩
    simp [step, on_exit]

lemma Inv_foldl (bt : Bool) (v : Int → Int) (es : List Event) (st : AppState)
    (hi : Inv st) : Inv (es.foldl (step bt v) st) := by
  induction es generalizing st with
  | nil => exact hi
  | cons e es ih => exact ih _ (Inv_step bt v st e hi)

lemma Inv_run (bt : Bool) (v : Int → Int) (es : List Event) :
    Inv (run bt v es) :=
  Inv_foldl bt v es state0 Inv_state0

/-! ### Theorems for the claims -/

/-- Claim C5 (confirmed): across every sequence of lifecycle calls from
the initial state, `is_connected` and `is_scanning` are never both true. -/
theorem connected_scanning_mutex (bt : Bool) (v : Int → Int) (es : List Event) :
    ((run bt v es).is_connected && (run bt v es).is_scanning) = false :=
  (Inv_run bt v es).1

/-- Claim C6 (confirmed): across every sequence of lifecycle calls from
the initial state, `heart_rate` is 0 whenever `is_connected` is false. -/
theorem disconnected_hr_zero (bt : Bool) (v : Int → Int) (es : List Event)
    (h : (run bt v es).is_connected = false) : (run bt v es).heart_rate = 0 :=
  (Inv_run bt v es).2 h

/-- Witness for claim C6: a run that scans, connects and exits ends
disconnected with a zero reading. -/
theorem disconnected_hr_zero_witness :
    (run true (fun _ => 0)
        [Event.update true false 0, Event.update false false 3000,
         Event.on_exit]).is_connected = false ∧
    (run true (fun _ => 0)
        [Event.update true false 0, Event.update false false 3000,
         Event.on_exit]).heart_rate = 0 :=
  ⟨by decide,
    disconnected_hr_zero true (fun _ => 0)
      [Event.update true false 0, Event.update false false 3000, Event.on_exit]
      (by decide)⟩

/-- Claim C9 (confirmed): after `on_exit` the state satisfies
`heart_rate = 0`, `is_connected = false` and `is_scanning = false`,
whatever the prior state was. -/
theorem on_exit_resets (st : AppState) :
    (on_exit st).heart_rate = 0 ∧ (on_exit st).is_connected = false ∧
    (on_exit st).is_scanning = false := by
  simp [on_exit]

/-- Claim C4 (confirmed): `_parse_heart_rate` agrees with the reference
function written from the words of the spec on every byte sequence. -/
theorem parse_heart_rate_eq_spec (data : List Nat) :
    parse_heart_rate data = parse_heart_rate_spec data := by
  rcases data with _ | ⟨b0, _ | ⟨b1, _ | ⟨b2, rest⟩⟩⟩
  · rfl
  · rfl
  · by_cases h : b0 % 2 = 0
    · simp [parse_heart_rate, parse_heart_rate_spec, Nat.and_one_is_mod,
        Nat.testBit_zero, h]
    · have h1 : b0 % 2 = 1 := by omega
      simp [parse_heart_rate, parse_heart_rate_spec, Nat.and_one_is_mod,
        Nat.testBit_zero, h1]
  · by_cases h : b0 % 2 = 0
    · simp [parse_heart_rate, parse_heart_rate_spec, Nat.and_one_is_mod,
        Nat.testBit_zero, h]
    · have h1 : b0 % 2 = 1 := by omega
      simp [parse_heart_rate, parse_heart_rate_spec, Nat.and_one_is_mod,
        Nat.testBit_zero, h1]

/-- Claim C3 (confirmed): when scanning and `now - scan_start` has reached
`scan_duration`, the timeout check performs exactly the transition
`is_scanning := false, is_connected := true, hr_update_time := now`; when
scanning but the duration has not elapsed, it changes nothing. -/
theorem scan_timeout_exact (st : AppState) (now : Int) :
    (st.is_scanning = true → st.scan_duration ≤ now - st.scan_start →
      scan_timeout_check st now =
        { st with is_scanning := false, is_connected := true,
                  hr_update_time := now }) ∧
    (st.is_scanning = true → now - st.scan_start < st.scan_duration →
      scan_timeout_check st now = st) := by
  constructor
  · intro h1 h2
    rw [scan_timeout_check, if_pos ⟨h1, h2⟩]
  · intro h1 h2
    rw [scan_timeout_check, if_neg]
    intro hc
    omega

/-- Witness for claim C3 at two concrete inputs, one on each side of the
timeout. -/
theorem scan_timeout_exact_witness :
    scan_timeout_check { state0 with is_scanning := true } 3000 =
      { state0 with is_scanning := false, is_connected := true,
                    hr_update_time := 3000 } ∧
    scan_timeout_check { state0 with is_scanning := true } 100 =
      { state0 with is_scanning := true } := by
  refine ⟨?_, ?_⟩
  · exact (scan_timeout_exact { state0 with is_scanning := true } 3000).1
      rfl (by norm_num [state0])
  · exact (scan_timeout_exact { state0 with is_scanning := true } 100).2
      rfl (by norm_num [state0])

/-- Claim C8 (confirmed): the simulated reading changes `heart_rate` and
`hr_update_time` only when at least 500 ms have passed; within the 500 ms
window the whole state is unchanged, and the other five fields are never
changed at all. -/
theorem simulate_frame_effect (st : AppState) (now : Int) :
    (now - st.hr_update_time < 500 → simulate_hr_reading variation st now = st) ∧
    (simulate_hr_reading variation st now).is_connected = st.is_connected ∧
    (simulate_hr_reading variation st now).is_scanning = st.is_scanning ∧
    (simulate_hr_reading variation st now).scan_start = st.scan_start ∧
    (simulate_hr_reading variation st now).scan_duration = st.scan_duration ∧
    (simulate_hr_reading variation st now).devices_found = st.devices_found :=
  ⟨simulate_not_yet variation st now, simulate_fields variation st now⟩

/-- Witness for claim C8: a frame 100 ms after the last refresh leaves the
initial state untouched. -/
theorem simulate_frame_effect_witness :
    simulate_hr_reading variation state0 100 = state0 :=
  (simulate_frame_effect state0 100).1 (by norm_num [state0])

/-- Counterexample for claim C1 as stated: when `BLUETOOTH_AVAILABLE` is
false, a frame that presses BUTTON_A in the idle initial state leaves the
whole state unchanged, so `is_scanning` is not set to true. -/
theorem press_a_counterexample :
    (update false variation state0 true false 0).1 = state0 ∧
    (update false variation state0 true false 0).1.is_scanning = false := by
  have h : (update false variation state0 true false 0).1 = state0 := by
    simp [update, handle_button_a, start_scan, scan_timeout_check,
      simulate_hr_reading, state0]
  exact ⟨h, by rw [h]; rfl⟩

/-- Claim C1 as amended (the transition requires `BLUETOOTH_AVAILABLE`):
when bluetooth is available and BUTTON_A is freshly pressed while neither
connected nor scanning (with the fixed 3000 ms scan duration), the update
sets `is_scanning = true`, `scan_start = now` and clears `devices_found`. -/
theorem press_a_starts_scan (v : Int → Int) (st : AppState) (home : Bool)
    (now : Int) (h1 : st.is_connected = false) (h2 : st.is_scanning = false)
    (h3 : st.scan_duration = 3000) :
    (update true v st true home now).1.is_scanning = true ∧
    (update true v st true home now).1.scan_start = now ∧
    (update true v st true home now).1.devices_found = [] := by
  have hs1 : handle_button_a true st now =
      { st with is_scanning := true, scan_start := now, devices_found := [] } := by
    rw [handle_button_a, if_pos ⟨h1, h2⟩, start_scan, if_pos rfl]
  cases home with
  | true => simp [update, hs1]
  | false =>
    have hs2 : scan_timeout_check
        { st with is_scanning := true, scan_start := now, devices_found := [] } now =
        { st with is_scanning := true, scan_start := now, devices_found := [] } := by
      rw [scan_timeout_check, if_neg]
      intro hc
      have := hc.2
      simp only [h3] at this
      omega
    have key : (update true v st true false now).1 =
        (if (scan_timeout_check (handle_button_a true st now) now).is_connected then
          simulate_hr_reading v (scan_timeout_check (handle_button_a true st now) now) now
        else scan_timeout_check (handle_button_a true st now) now) := rfl
    rw [key, hs1, hs2]
    simp [h1]

/-- Witness for claim C1: pressing BUTTON_A at tick 7 from the initial
state with bluetooth available starts a scan. -/
theorem press_a_starts_scan_witness :
    state0.is_connected = false ∧ state0.is_scanning = false ∧
    state0.scan_duration = 3000 ∧
    ((update true (fun _ => 0) state0 true false 7).1.is_scanning = true ∧
      (update true (fun _ => 0) state0 true false 7).1.scan_start = 7 ∧
      (update true (fun _ => 0) state0 true false 7).1.devices_found = []) :=
  ⟨rfl, rfl, rfl, press_a_starts_scan (fun _ => 0) state0 false 7 rfl rfl rfl⟩

/-- Claim C10 (confirmed): with bluetooth unavailable, `_start_scan` does
not touch the state, and an update frame pressing BUTTON_A while neither
connected nor scanning leaves every field of the state unchanged. -/
theorem no_bluetooth_idle_frame (v : Int → Int) (st : AppState) (home : Bool)
    (now : Int) (h1 : st.is_connected = false) (h2 : st.is_scanning = false) :
    start_scan false st now = st ∧ (update false v st true home now).1 = st := by
  have hss : start_scan false st now = st := by
    rw [start_scan, if_neg Bool.false_ne_true]
  refine ⟨hss, ?_⟩
  have hs1 : handle_button_a false st now = st := by
    rw [handle_button_a, if_pos ⟨h1, h2⟩, hss]
  cases home with
  | true => simp [update, hs1]
  | false =>
    have hs2 : scan_timeout_check st now = st := by
      rw [scan_timeout_check, if_neg]
      intro hc
      rw [h2] at hc
      exact Bool.false_ne_true hc.1
    simp [update, hs1, hs2, h1]

/-- Witness for claim C10: pressing BUTTON_A at tick 5 from the initial
state with bluetooth unavailable changes nothing. -/
theorem no_bluetooth_idle_frame_witness :
    state0.is_connected = false ∧ state0.is_scanning = false ∧
    (start_scan false state0 5 = state0 ∧
      (update false (fun _ => 0) state0 true false 5).1 = state0) :=
  ⟨rfl, rfl, no_bluetooth_idle_frame (fun _ => 0) state0 false 5 rfl rfl⟩

/-- The frame sequence of claim C2: press BUTTON_A at tick 0, then
button-free frames at ticks 100, 1000 and 3001. -/
def c2_frames : List Event :=
  [Event.update true false 0, Event.update false false 100,
   Event.update false false 1000, Event.update false false 3001]

lemma run_c2_frames (w : Int → Int) :
    run true w c2_frames =
      { state0 with is_connected := true, hr_update_time := 3001 } := by
  norm_num [run, c2_frames, step, update, handle_button_a, start_scan,
    scan_timeout_check, simulate_hr_reading, state0]

/-- Counterexample for claim C2 as stated: with bluetooth available, after
the frames [A at 0], 100, 1000, 3001 the state is indeed connected, but
`heart_rate` is still 0, which does not lie in the interval [64, 80]. -/
theorem scan_complete_counterexample :
    (run true variation c2_frames).is_connected = true ∧
    (run true variation c2_frames).heart_rate = 0 ∧
    (run true variation c2_frames).heart_rate < 64 := by
  rw [run_c2_frames variation]
  refine ⟨rfl, rfl, by norm_num [state0]⟩

/-- Claim C2 as amended: on the first button-free frame whose tick
satisfies `now - scan_start >= scan_duration` the state becomes connected
with `hr_update_time = now`, but `heart_rate` is not repopulated on that
same frame (the refresh window `now - hr_update_time >= 500` just
restarted); concretely, after the frames at ticks 0 (BUTTON_A), 100, 1000
and 3001 the state is connected with `heart_rate = 0`. -/
theorem scan_complete_connects (bt : Bool) (v : Int → Int) (st : AppState)
    (now : Int) (h1 : st.is_scanning = true)
    (h2 : st.scan_duration ≤ now - st.scan_start) :
    (update bt v st false false now).1 =
      { st with is_scanning := false, is_connected := true,
                hr_update_time := now } ∧
    run true v c2_frames =
      { state0 with is_connected := true, hr_update_time := 3001 } := by
  refine ⟨?_, run_c2_frames v⟩
  rw [update_fst]
  have hto : scan_timeout_check st now =
      { st with is_scanning := false, is_connected := true,
                hr_update_time := now } := by
    rw [scan_timeout_check, if_pos ⟨h1, h2⟩]
  simp only [Bool.false_eq_true, if_false, hto]
  rw [if_pos trivial, simulate_hr_reading, if_neg (by simp)]

/-- Witness for claim C2: a scanning state whose timeout has elapsed
connects on the next frame, and the concrete C2 trace ends connected with
a zero reading. -/
theorem scan_complete_connects_witness :
    (update true (fun _ => 0)
        { state0 with is_scanning := true } false false 3000).1 =
      { state0 with is_scanning := false, is_connected := true,
                    hr_update_time := 3000 } ∧
    run true (fun _ => 0) c2_frames =
      { state0 with is_connected := true, hr_update_time := 3001 } :=
  scan_complete_connects true (fun _ => 0)
    { state0 with is_scanning := true } 3000 rfl (by norm_num [state0])

/-! ### Bounds on the simulated variation -/

lemma sin_half_bounds :
    (731 : ℝ) / 1536 ≤ Real.sin (1 / 2) ∧ Real.sin (1 / 2) ≤ 741 / 1536 := by
  have habs : |(1 : ℝ) / 2| = 1 / 2 := by
    rw [abs_of_pos]
    norm_num
  have h := @Real.sin_bound ((1 : ℝ) / 2) (by rw [habs]; norm_num)
  rw [habs, abs_le] at h
  obtain ⟨hl, hr⟩ := h
  constructor <;> nlinarith

lemma variation_500 : variation 500 = 3 := by
  have hs := sin_half_bounds
  have harg : (((500 : Int) : ℝ)) / 1000 = 1 / 2 := by norm_num
  rw [variation, harg, pyInt, if_pos (by nlinarith [hs.1])]
  rw [Int.floor_eq_iff]
  constructor
  · push_cast
    nlinarith [hs.1]
  · push_cast
    nlinarith [hs.2]

lemma round_sin_500 : round (Real.sin ((500 : ℝ) / 1000) * 8) = 4 := by
  have hs := sin_half_bounds
  have harg : (500 : ℝ) / 1000 = 1 / 2 := by norm_num
  rw [harg, round_eq, Int.floor_eq_iff]
  constructor
  · push_cast
    nlinarith [hs.1]
  · push_cast
    nlinarith [hs.2]

lemma variation_bounds (t : Int) : -8 ≤ variation t ∧ variation t ≤ 8 := by
  have h1 : -1 ≤ Real.sin ((t : ℝ) / 1000) := Real.neg_one_le_sin _
  have h2 : Real.sin ((t : ℝ) / 1000) ≤ 1 := Real.sin_le_one _
  rw [variation, pyInt]
  split
  · next hpos =>
    constructor
    · have := Int.floor_nonneg.mpr hpos
      omega
    · have : ⌊Real.sin ((t : ℝ) / 1000) * 8⌋ < 9 :=
        Int.floor_lt.mpr (by push_cast; nlinarith)
      omega
  · next hneg =>
    push_neg at hneg
    constructor
    · have : (-9 : Int) < ⌈Real.sin ((t : ℝ) / 1000) * 8⌉ :=
        Int.lt_ceil.mpr (by push_cast; nlinarith)
      omega
    · have : ⌈Real.sin ((t : ℝ) / 1000) * 8⌉ ≤ 0 :=
        Int.ceil_le.mpr (by push_cast; nlinarith)
      omega

/-- Counterexample for claim C7 as stated: at tick 500 (with the last
refresh at tick 0) the code computes `heart_rate = 72 + int(sin(0.5) * 8)
= 72 + 3 = 75`, while the formula of the claim, `72 + round(sin(0.5) * 8)`,
gives 76: the code truncates toward zero instead of rounding. -/
theorem simulate_trunc_not_round :
    (simulate_hr_reading variation
        { state0 with is_connected := true } 500).heart_rate = 75 ∧
    72 + round (Real.sin ((500 : ℝ) / 1000) * 8) = 76 := by
  constructor
  · have h : simulate_hr_reading variation
        { state0 with is_connected := true } 500 =
        { state0 with is_connected := true,
                      heart_rate := 72 + variation 500,
                      hr_update_time := 500 } := by
      rw [simulate_hr_reading, if_pos (by norm_num [state0])]
    rw [h, variation_500]
    norm_num
  · rw [round_sin_500]
    norm_num

/-- Claim C7 as amended: when `now - hr_update_time >= 500` the simulated
reading recomputes `heart_rate = 72 + int(sin(now / 1000) * 8)` (truncation
toward zero, not rounding) and sets `hr_update_time = now`; the result
always lies in the interval [64, 80]. -/
theorem simulate_recompute (st : AppState) (now : Int)
    (h : 500 ≤ now - st.hr_update_time) :
    (simulate_hr_reading variation st now).heart_rate = 72 + variation now ∧
    (simulate_hr_reading variation st now).hr_update_time = now ∧
    64 ≤ (simulate_hr_reading variation st now).heart_rate ∧
    (simulate_hr_reading variation st now).heart_rate ≤ 80 := by
  have hb := variation_bounds now
  rw [simulate_hr_reading, if_pos h]
  refine ⟨rfl, rfl, ?_, ?_⟩ <;> simp <;> omega

/-- Witness for claim C7: a refresh at tick 500 from the initial refresh
time 0 recomputes the reading and lands inside [64, 80]. -/
theorem simulate_recompute_witness :
    (500 : Int) ≤ 500 - state0.hr_update_time ∧
    ((simulate_hr_reading variation state0 500).heart_rate =
        72 + variation 500 ∧
      (simulate_hr_reading variation state0 500).hr_update_time = 500 ∧
      64 ≤ (simulate_hr_reading variation state0 500).heart_rate ∧
      (simulate_hr_reading variation state0 500).heart_rate ≤ 80) :=
  ⟨by norm_num [state0], simulate_recompute state0 500 (by norm_num [state0])⟩

end HeartRate
